import Mathlib

/-!
Verification of the client-side state layer of the Energent.ai dashboard.

The development shallowly embeds the two state containers described in the
specification:

* the global Zustand store (`src/store` global store file): a single record
  updated by named action methods, a subset of which is persisted;
* the Jotai atom slices (uiAtoms, aiAgentAtoms, vncAtoms, userAtoms): each
  write-only action atom becomes a pure function from the slice state to the
  slice state.

Conventions of the embedding:

* JavaScript `Date` values are modelled as `Nat` (milliseconds since epoch);
* JavaScript `number` is modelled as `Rat` (JS floats are exact on the small
  integer values the claims exercise; no claim depends on float rounding);
* nondeterministic inputs (`generateId()`, `new Date()`, `Date.now()`) are
  supplied as explicit parameters of the corresponding action;
* `any`-typed payload fields are modelled as `Option String` (opaque data);
* function-valued fields (a toast's `action.onClick`) are omitted, they carry
  no state;
* environment probes (`import.meta.env.DEV`, `import.meta.env.MODE`,
  `navigator.onLine`) are parameters `dev`, `mode`, `online` of the initial
  state and of the machine step.
-/

namespace Energent

/-- JavaScript numbers are embedded as rationals. -/
abbrev JSNum := Rat

/-- JS `arr.slice(-n)`: the last `min n arr.length` elements, in order. -/
def sliceLast (n : Nat) (l : List α) : List α :=
  l.drop (l.length - n)

/-- JS `!x` on an optional boolean: `!undefined === true`. -/
def jsNot : Option Bool → Bool
  | none => true
  | some b => !b

/-! ## Shared domain types (`src/types`) -/

/-- `VNCQuality` from the global types file. -/
structure VNCQuality where
  compression : JSNum
  jpegQuality : JSNum
  colorDepth : JSNum
  frameRate : JSNum
deriving DecidableEq, Repr

/-- `AppSettings` from the global types file. -/
structure AppSettings where
  autoSave : Bool
  saveInterval : JSNum
  defaultAgent : String
  defaultVNCQuality : VNCQuality
  analytics : Bool
  crashReporting : Bool
deriving DecidableEq, Repr

/-- `Partial<AppSettings>` as taken by `updateSettings`. -/
structure AppSettingsUpdate where
  autoSave : Option Bool := none
  saveInterval : Option JSNum := none
  defaultAgent : Option String := none
  defaultVNCQuality : Option VNCQuality := none
  analytics : Option Bool := none
  crashReporting : Option Bool := none
deriving DecidableEq, Repr

/-- `Object.assign(settings, update)`: fields present in the update win. -/
def applySettingsUpdate (u : AppSettingsUpdate) (s : AppSettings) : AppSettings :=
  { autoSave := u.autoSave.getD s.autoSave
    saveInterval := u.saveInterval.getD s.saveInterval
    defaultAgent := u.defaultAgent.getD s.defaultAgent
    defaultVNCQuality := u.defaultVNCQuality.getD s.defaultVNCQuality
    analytics := u.analytics.getD s.analytics
    crashReporting := u.crashReporting.getD s.crashReporting }

/-- `PerformanceMetrics` from the global types file. -/
structure PerformanceMetrics where
  renderTime : JSNum
  bundleSize : JSNum
  memoryUsage : JSNum
  networkLatency : JSNum
  vncFrameRate : JSNum
  aiResponseTime : JSNum
  errorRate : JSNum
  timestamp : Nat
deriving DecidableEq, Repr

/-- Severity union used by alerts and security events. -/
inductive Severity where
  | low | medium | high | critical
deriving DecidableEq, Repr

/-- Alert type union of `PerformanceAlert`. -/
inductive AlertType where
  | memory | bundle | render | network
deriving DecidableEq, Repr

/-- `PerformanceAlert` from the global store file. -/
structure PerformanceAlert where
  id : String
  type : AlertType
  message : String
  severity : Severity
  timestamp : Nat
  resolved : Bool
deriving DecidableEq, Repr

/-- `Omit<PerformanceAlert, 'id' | 'timestamp'>` taken by `addPerformanceAlert`. -/
structure PerformanceAlertInput where
  type : AlertType
  message : String
  severity : Severity
  resolved : Bool
deriving DecidableEq, Repr

/-- Security event type union. -/
inductive SecEventType where
  | authentication | authorization | vulnerability | intrusion
deriving DecidableEq, Repr

/-- `SecurityEvent` from the global types file. -/
structure SecurityEvent where
  id : String
  type : SecEventType
  severity : Severity
  description : String
  source : String
  userId : Option String
  ipAddress : String
  userAgent : String
  timestamp : Nat
  resolved : Bool
deriving DecidableEq, Repr

/-- `Omit<SecurityEvent, 'id' | 'timestamp'>` taken by `addSecurityEvent`. -/
structure SecurityEventInput where
  type : SecEventType
  severity : Severity
  description : String
  source : String
  userId : Option String
  ipAddress : String
  userAgent : String
  resolved : Bool
deriving DecidableEq, Repr

/-- Log level union of `DebugLog`. -/
inductive LogLevel where
  | debug | info | warn | error
deriving DecidableEq, Repr

/-- `DebugLog` from the global store file; the `any` payload is opaque. -/
structure DebugLog where
  id : String
  level : LogLevel
  message : String
  data : Option String
  timestamp : Nat
deriving DecidableEq, Repr

/-- `Omit<DebugLog, 'id' | 'timestamp'>` taken by `addDebugLog`. -/
structure DebugLogInput where
  level : LogLevel
  message : String
  data : Option String
deriving DecidableEq, Repr

/-- A JS `Error` value: its message and optional stack. -/
structure JSError where
  message : String
  stack : Option String
deriving DecidableEq, Repr

/-- `ErrorLog` from the global store file. -/
structure ErrorLog where
  id : String
  error : JSError
  stack : Option String
  context : Option String
  timestamp : Nat
  user : Option String
deriving DecidableEq, Repr

/-- Connection status union used for `apiStatus` and `wsStatus`. -/
inductive ConnStatus where
  | connected | disconnected | connecting | error
deriving DecidableEq, Repr

end Energent

namespace Energent.GlobalStore

/-! ## The global Zustand store -/

/-- `Record<string, boolean>`: an insertion-ordered association list, as a JS
object behaves under property assignment. -/
abbrev FeatureFlags := List (String × Bool)

/-- JS property read `r[k]`, `undefined` as `none`. -/
def recordGet (k : String) (r : FeatureFlags) : Option Bool :=
  (r.find? (fun kv => kv.1 == k)).map (·.2)

/-- JS property assignment `r[k] = v`: overwrite in place, or append. -/
def recordSet (k : String) (v : Bool) (r : FeatureFlags) : FeatureFlags :=
  if r.any (fun kv => kv.1 == k) then
    r.map (fun kv => if kv.1 == k then (k, v) else kv)
  else
    r ++ [(k, v)]

/-- `performance` slice of `GlobalState`. -/
structure PerfSlice where
  metrics : List PerformanceMetrics
  isMonitoring : Bool
  alerts : List PerformanceAlert
deriving DecidableEq, Repr

/-- `security` slice of `GlobalState`. -/
structure SecuritySlice where
  events : List SecurityEvent
  isSecure : Bool
  lastSecurityCheck : Option Nat
deriving DecidableEq, Repr

/-- `connectivity` slice of `GlobalState`. -/
structure Connectivity where
  isOnline : Bool
  apiStatus : ConnStatus
  wsStatus : ConnStatus
  lastConnected : Option Nat
deriving DecidableEq, Repr

/-- `debug` slice of `GlobalState`. -/
structure DebugSlice where
  enabled : Bool
  logs : List DebugLog
  errors : List ErrorLog
deriving DecidableEq, Repr

/-- `GlobalState` of the Zustand store. -/
structure GlobalState where
  isInitialized : Bool
  version : String
  environment : String
  settings : AppSettings
  performance : PerfSlice
  security : SecuritySlice
  features : FeatureFlags
  connectivity : Connectivity
  debug : DebugSlice
deriving DecidableEq, Repr

/-- `defaultSettings` constant of the global store file. -/
def defaultSettings : AppSettings :=
  { autoSave := true
    saveInterval := 30000
    defaultAgent := "gpt-4"
    defaultVNCQuality :=
      { compression := 6, jpegQuality := 6, colorDepth := 24, frameRate := 30 }
    analytics := true
    crashReporting := true }

/-- `initialState` constant; `dev` is `import.meta.env.DEV`, `online` is
`navigator.onLine`, `mode` is `import.meta.env.MODE`. -/
def initialState (dev online : Bool) (mode : String) : GlobalState :=
  { isInitialized := false
    version := "1.0.0"
    environment := mode
    settings := defaultSettings
    performance := { metrics := [], isMonitoring := dev, alerts := [] }
    security := { events := [], isSecure := true, lastSecurityCheck := none }
    features :=
      [ ("aiStreaming", true), ("vncCompression", true),
        ("performanceMonitoring", true), ("securityLogging", true),
        ("offlineMode", false), ("experimentalFeatures", false),
        ("debugMode", dev) ]
    connectivity :=
      { isOnline := online, apiStatus := ConnStatus.disconnected,
        wsStatus := ConnStatus.disconnected, lastConnected := none }
    debug := { enabled := dev, logs := [], errors := [] } }

/-- `initialize` action (renamed: Lean-reserved word): sets the flag and
stamps `lastConnected`. -/
def initApp (now : Nat) (s : GlobalState) : GlobalState :=
  { s with isInitialized := true
           connectivity := { s.connectivity with lastConnected := some now } }

/-- `setInitialized` action. -/
def setInitialized (b : Bool) (s : GlobalState) : GlobalState :=
  { s with isInitialized := b }

/-- `updateSettings` action: `Object.assign(state.settings, settings)`. -/
def updateSettings (u : AppSettingsUpdate) (s : GlobalState) : GlobalState :=
  { s with settings := applySettingsUpdate u s.settings }

/-- `resetSettings` action. -/
def resetSettings (s : GlobalState) : GlobalState :=
  { s with settings := defaultSettings }

/-- Alert message for high memory usage; JS `toFixed(1)` float formatting is
abstracted to integer rendering of megabytes (no claim reads this string). -/
def memoryAlertMessage (memoryUsage : JSNum) : String :=
  "High memory usage: " ++ toString (memoryUsage / (1024 * 1024)).floor ++ "MB"

/-- Alert message for slow renders. -/
def renderAlertMessage (renderTime : JSNum) : String :=
  "Slow render time: " ++ toString renderTime ++ "ms"

/-- `addPerformanceMetric` action: push the metric, trim to the last 100, and
auto-generate memory/render alerts past the thresholds. `id1`/`id2` are the
two potential `generateId()` results, `now` the `new Date()` stamp. -/
def addPerformanceMetric (metric : PerformanceMetrics) (now : Nat)
    (id1 id2 : String) (s : GlobalState) : GlobalState :=
  let metrics1 := s.performance.metrics ++ [metric]
  let metrics2 := if metrics1.length > 100 then sliceLast 100 metrics1 else metrics1
  let alerts1 :=
    if metric.memoryUsage > 100 * 1024 * 1024 then
      s.performance.alerts ++
        [ { id := id1, type := AlertType.memory,
            message := memoryAlertMessage metric.memoryUsage,
            severity := if metric.memoryUsage > 200 * 1024 * 1024 then
                Severity.critical else Severity.high,
            timestamp := now, resolved := false } ]
    else s.performance.alerts
  let alerts2 :=
    if metric.renderTime > 50 then
      alerts1 ++
        [ { id := id2, type := AlertType.render,
            message := renderAlertMessage metric.renderTime,
            severity := if metric.renderTime > 100 then
                Severity.high else Severity.medium,
            timestamp := now, resolved := false } ]
    else alerts1
  { s with performance :=
      { s.performance with metrics := metrics2, alerts := alerts2 } }

/-- `togglePerformanceMonitoring` action. -/
def togglePerformanceMonitoring (s : GlobalState) : GlobalState :=
  { s with performance :=
      { s.performance with isMonitoring := !s.performance.isMonitoring } }

/-- `addPerformanceAlert` action. -/
def addPerformanceAlert (a : PerformanceAlertInput) (now : Nat) (i : String)
    (s : GlobalState) : GlobalState :=
  { s with performance :=
      { s.performance with alerts := s.performance.alerts ++
          [ { id := i, type := a.type, message := a.message,
              severity := a.severity, timestamp := now,
              resolved := a.resolved } ] } }

/-- Mutate the first alert with the given id (`find` + in-place write). -/
def resolveFirstAlert (alertId : String) :
    List PerformanceAlert → List PerformanceAlert
  | [] => []
  | a :: rest =>
    if a.id == alertId then { a with resolved := true } :: rest
    else a :: resolveFirstAlert alertId rest

/-- `resolvePerformanceAlert` action. -/
def resolvePerformanceAlert (alertId : String) (s : GlobalState) : GlobalState :=
  { s with performance :=
      { s.performance with alerts := resolveFirstAlert alertId s.performance.alerts } }

/-- `clearPerformanceData` action. -/
def clearPerformanceData (s : GlobalState) : GlobalState :=
  { s with performance := { s.performance with metrics := [], alerts := [] } }

/-- The security event record built by `addSecurityEvent`. -/
def mkSecurityEvent (e : SecurityEventInput) (now : Nat) (i : String) :
    SecurityEvent :=
  { id := i, type := e.type, severity := e.severity,
    description := e.description, source := e.source, userId := e.userId,
    ipAddress := e.ipAddress, userAgent := e.userAgent,
    timestamp := now, resolved := e.resolved }

/-- `addSecurityEvent` action: push the event, trim to the last 1000, and
drop the secure flag on high/critical events. -/
def addSecurityEvent (e : SecurityEventInput) (now : Nat) (i : String)
    (s : GlobalState) : GlobalState :=
  let events1 := s.security.events ++ [mkSecurityEvent e now i]
  let events2 := if events1.length > 1000 then sliceLast 1000 events1 else events1
  let isSecure' :=
    if e.severity = Severity.critical ∨ e.severity = Severity.high then false
    else s.security.isSecure
  { s with security :=
      { s.security with events := events2, isSecure := isSecure' } }

/-- `updateSecurityStatus` action. -/
def updateSecurityStatus (b : Bool) (s : GlobalState) : GlobalState :=
  { s with security := { s.security with isSecure := b } }

/-- `performSecurityCheck` action: secure iff no critical event of the last
24 hours. JS computes `Date.now() - ts`; on `Nat` the truncated difference
also satisfies `< 24h` whenever the JS (possibly negative) one does. -/
def performSecurityCheck (now : Nat) (s : GlobalState) : GlobalState :=
  let recentCritical := s.security.events.filter
    (fun e => e.severity == Severity.critical &&
      now - e.timestamp < 24 * 60 * 60 * 1000)
  { s with security :=
      { s.security with
          lastSecurityCheck := some now
          isSecure := recentCritical.length == 0 } }

/-- `setFeatureFlag` action. -/
def setFeatureFlag (feature : String) (enabled : Bool) (s : GlobalState) :
    GlobalState :=
  { s with features := recordSet feature enabled s.features }

/-- `toggleFeatureFlag` action: `features[f] = !features[f]`. -/
def toggleFeatureFlag (feature : String) (s : GlobalState) : GlobalState :=
  { s with features :=
      recordSet feature (jsNot (recordGet feature s.features)) s.features }

/-- `setOnlineStatus` action. -/
def setOnlineStatus (isOnline : Bool) (now : Nat) (s : GlobalState) :
    GlobalState :=
  { s with connectivity :=
      { s.connectivity with
          isOnline := isOnline
          lastConnected := if isOnline then some now
            else s.connectivity.lastConnected } }

/-- `updateApiStatus` action. -/
def updateApiStatus (st : ConnStatus) (now : Nat) (s : GlobalState) :
    GlobalState :=
  { s with connectivity :=
      { s.connectivity with
          apiStatus := st
          lastConnected := if st = ConnStatus.connected then some now
            else s.connectivity.lastConnected } }

/-- `updateWsStatus` action. -/
def updateWsStatus (st : ConnStatus) (now : Nat) (s : GlobalState) :
    GlobalState :=
  { s with connectivity :=
      { s.connectivity with
          wsStatus := st
          lastConnected := if st = ConnStatus.connected then some now
            else s.connectivity.lastConnected } }

/-- `toggleDebug` action. -/
def toggleDebug (s : GlobalState) : GlobalState :=
  { s with debug := { s.debug with enabled := !s.debug.enabled } }

/-- The debug log record built by `addDebugLog`. -/
def mkDebugLog (lg : DebugLogInput) (now : Nat) (i : String) : DebugLog :=
  { id := i, level := lg.level, message := lg.message,
    data := lg.data, timestamp := now }

/-- `addDebugLog` action: only when `debug.enabled`, push the entry and trim
to the last 500. -/
def addDebugLog (lg : DebugLogInput) (now : Nat) (i : String)
    (s : GlobalState) : GlobalState :=
  if s.debug.enabled then
    let logs1 := s.debug.logs ++ [mkDebugLog lg now i]
    let logs2 := if logs1.length > 500 then sliceLast 500 logs1 else logs1
    { s with debug := { s.debug with logs := logs2 } }
  else s

/-- `addErrorLog` action: push the error record and trim to the last 100. -/
def addErrorLog (e : JSError) (context : Option String) (now : Nat)
    (i : String) (s : GlobalState) : GlobalState :=
  let errors1 := s.debug.errors ++
    [ { id := i, error := e, stack := e.stack, context := context,
        timestamp := now, user := some "current-user" } ]
  let errors2 := if errors1.length > 100 then sliceLast 100 errors1 else errors1
  { s with debug := { s.debug with errors := errors2 } }

/-- `clearDebugLogs` action. -/
def clearDebugLogs (s : GlobalState) : GlobalState :=
  { s with debug := { s.debug with logs := [], errors := [] } }

/-- `reset` action: `set(() => initialState)`. -/
def reset (dev online : Bool) (mode : String) (_ : GlobalState) : GlobalState :=
  initialState dev online mode

/-- The action alphabet of the global store: one constructor per action
method, carrying its payload plus the generated ids and timestamps. -/
inductive GAction where
  | initApp (now : Nat)
  | setInitialized (b : Bool)
  | updateSettings (u : AppSettingsUpdate)
  | resetSettings
  | addPerformanceMetric (m : PerformanceMetrics) (now : Nat) (id1 id2 : String)
  | togglePerformanceMonitoring
  | addPerformanceAlert (a : PerformanceAlertInput) (now : Nat) (i : String)
  | resolvePerformanceAlert (alertId : String)
  | clearPerformanceData
  | addSecurityEvent (e : SecurityEventInput) (now : Nat) (i : String)
  | updateSecurityStatus (b : Bool)
  | performSecurityCheck (now : Nat)
  | setFeatureFlag (feature : String) (enabled : Bool)
  | toggleFeatureFlag (feature : String)
  | setOnlineStatus (isOnline : Bool) (now : Nat)
  | updateApiStatus (st : ConnStatus) (now : Nat)
  | updateWsStatus (st : ConnStatus) (now : Nat)
  | toggleDebug
  | addDebugLog (lg : DebugLogInput) (now : Nat) (i : String)
  | addErrorLog (e : JSError) (context : Option String) (now : Nat) (i : String)
  | clearDebugLogs
  | reset
deriving Repr

/-- One action call on the global store. -/
def step (dev online : Bool) (mode : String) : GAction → GlobalState → GlobalState
  | GAction.initApp now => initApp now
  | GAction.setInitialized b => setInitialized b
  | GAction.updateSettings u => updateSettings u
  | GAction.resetSettings => resetSettings
  | GAction.addPerformanceMetric m now i1 i2 => addPerformanceMetric m now i1 i2
  | GAction.togglePerformanceMonitoring => togglePerformanceMonitoring
  | GAction.addPerformanceAlert a now i => addPerformanceAlert a now i
  | GAction.resolvePerformanceAlert i => resolvePerformanceAlert i
  | GAction.clearPerformanceData => clearPerformanceData
  | GAction.addSecurityEvent e now i => addSecurityEvent e now i
  | GAction.updateSecurityStatus b => updateSecurityStatus b
  | GAction.performSecurityCheck now => performSecurityCheck now
  | GAction.setFeatureFlag f b => setFeatureFlag f b
  | GAction.toggleFeatureFlag f => toggleFeatureFlag f
  | GAction.setOnlineStatus b now => setOnlineStatus b now
  | GAction.updateApiStatus st now => updateApiStatus st now
  | GAction.updateWsStatus st now => updateWsStatus st now
  | GAction.toggleDebug => toggleDebug
  | GAction.addDebugLog lg now i => addDebugLog lg now i
  | GAction.addErrorLog e c now i => addErrorLog e c now i
  | GAction.clearDebugLogs => clearDebugLogs
  | GAction.reset => reset dev online mode

/-- A sequence of action calls on the global store. -/
def run (dev online : Bool) (mode : String) (acts : List GAction)
    (s : GlobalState) : GlobalState :=
  acts.foldl (fun st a => step dev online mode a st) s

/-- The persisted subset configured by the store's `partialize` option:
settings, features, and the debug enabled flag. -/
structure PersistedState where
  settings : AppSettings
  features : FeatureFlags
  debugEnabled : Bool
deriving DecidableEq, Repr

/-- Embedding of the `partialize` option of the persist middleware. -/
def persistedSubset (s : GlobalState) : PersistedState :=
  { settings := s.settings, features := s.features,
    debugEnabled := s.debug.enabled }

/-- Modelled from the spec: rehydration at startup by the persist middleware,
which is library code not present in this repository. Per the specification,
the persisted subset is rehydrated over the default initial state, leaving
every non-persisted field at its default. -/
def rehydrate (dev online : Bool) (mode : String) (p : PersistedState) :
    GlobalState :=
  { initialState dev online mode with
      settings := p.settings
      features := p.features
      debug := { (initialState dev online mode).debug with
                   enabled := p.debugEnabled } }

end Energent.GlobalStore

namespace Energent.AIAgents

/-! ## The AI agent Jotai slice (aiAgentAtoms) -/

/-- `AgentType` union. -/
inductive AgentType where
  | conversational | taskOriented | analytical | creative | coding
deriving DecidableEq, Repr

/-- `AIModel` from the global types file. -/
structure AIModel where
  id : String
  name : String
  version : String
  provider : String
  contextWindow : JSNum
  maxTokens : JSNum
  temperature : JSNum
  topP : JSNum
deriving DecidableEq, Repr

/-- `AgentStatus` union. -/
inductive AgentStatus where
  | idle | processing | responding | error | maintenance
deriving DecidableEq, Repr

/-- `AgentCapability`; the `any`-valued parameters record is opaque. -/
structure AgentCapability where
  id : String
  name : String
  description : String
  enabled : Bool
  parameters : Option String
deriving DecidableEq, Repr

/-- `AgentTool`; the `any`-valued configuration record is opaque. -/
structure AgentTool where
  id : String
  name : String
  description : String
  enabled : Bool
  configuration : Option String
deriving DecidableEq, Repr

/-- `AgentConstraint`; its `any` value is opaque. -/
structure AgentConstraint where
  type : String
  value : String
  description : String
deriving DecidableEq, Repr

/-- `AgentConfiguration` from the global types file. -/
structure AgentConfiguration where
  systemPrompt : String
  responseStyle : String
  personality : String
  tools : List AgentTool
  constraints : List AgentConstraint
deriving DecidableEq, Repr

/-- `AgentPerformance` from the global types file. -/
structure AgentPerformance where
  averageResponseTime : JSNum
  successRate : JSNum
  userSatisfaction : JSNum
  totalInteractions : JSNum
  errorCount : JSNum
  lastEvaluatedAt : Nat
deriving DecidableEq, Repr

/-- `Partial<AgentPerformance>` taken by `updateAgentPerformanceAtom`. -/
structure AgentPerformanceUpdate where
  averageResponseTime : Option JSNum := none
  successRate : Option JSNum := none
  userSatisfaction : Option JSNum := none
  totalInteractions : Option JSNum := none
  errorCount : Option JSNum := none
  lastEvaluatedAt : Option Nat := none
deriving DecidableEq, Repr

/-- `Object.assign(performance, update)`. -/
def applyPerformanceUpdate (u : AgentPerformanceUpdate) (p : AgentPerformance) :
    AgentPerformance :=
  { averageResponseTime := u.averageResponseTime.getD p.averageResponseTime
    successRate := u.successRate.getD p.successRate
    userSatisfaction := u.userSatisfaction.getD p.userSatisfaction
    totalInteractions := u.totalInteractions.getD p.totalInteractions
    errorCount := u.errorCount.getD p.errorCount
    lastEvaluatedAt := u.lastEvaluatedAt.getD p.lastEvaluatedAt }

/-- `AIAgent` from the global types file. -/
structure AIAgent where
  id : String
  name : String
  type : AgentType
  model : AIModel
  status : AgentStatus
  capabilities : List AgentCapability
  configuration : AgentConfiguration
  performance : AgentPerformance
  createdAt : Nat
  lastActiveAt : Nat
deriving DecidableEq, Repr

/-- `ConversationEntry` of the AI agent slice. -/
structure ConversationEntry where
  id : String
  agentId : String
  userInput : String
  agentResponse : String
  timestamp : Nat
  responseTime : JSNum
  tokensInput : JSNum
  tokensOutput : JSNum
deriving DecidableEq, Repr

/-- `StreamingMessage` of the AI agent slice. -/
structure StreamingMessage where
  id : String
  content : String
  isComplete : Bool
  startTime : Nat
deriving DecidableEq, Repr

/-- `AIAgentState` behind `aiAgentAtom`. -/
structure AIAgentState where
  agents : List AIAgent
  activeAgent : Option AIAgent
  isProcessing : Bool
  lastResponse : Option String
  conversationHistory : List ConversationEntry
  error : Option String
  streamingMessage : Option StreamingMessage
deriving DecidableEq, Repr

/-- `initialAIAgentState`. -/
def initialAIAgentState : AIAgentState :=
  { agents := [], activeAgent := none, isProcessing := false,
    lastResponse := none, conversationHistory := [], error := none,
    streamingMessage := none }

/-- `setActiveAgentAtom` write. -/
def setActiveAgent (agent : Option AIAgent) (s : AIAgentState) : AIAgentState :=
  { s with activeAgent := agent, error := none }

/-- Replace the first list element with the given agent id, JS `findIndex`
followed by index assignment. -/
def replaceFirstAgent (agent : AIAgent) : List AIAgent → List AIAgent
  | [] => []
  | a :: rest =>
    if a.id == agent.id then agent :: rest
    else a :: replaceFirstAgent agent rest

/-- `addAgentAtom` write: replace an existing agent with the same id, else
push. -/
def addAgent (agent : AIAgent) (s : AIAgentState) : AIAgentState :=
  if s.agents.any (fun a => a.id == agent.id) then
    { s with agents := replaceFirstAgent agent s.agents }
  else
    { s with agents := s.agents ++ [agent] }

/-- `removeAgentAtom` write: filter out the id and clear a matching active
agent. -/
def removeAgent (agentId : String) (s : AIAgentState) : AIAgentState :=
  let agents' := s.agents.filter (fun a => a.id != agentId)
  let active' :=
    match s.activeAgent with
    | some a => if a.id == agentId then none else some a
    | none => none
  { s with agents := agents', activeAgent := active' }

/-- Mutate the first agent with the given id, JS `find` plus in-place write. -/
def setFirstAgentStatus (agentId : String) (st : AgentStatus) (now : Nat) :
    List AIAgent → List AIAgent
  | [] => []
  | a :: rest =>
    if a.id == agentId then { a with status := st, lastActiveAt := now } :: rest
    else a :: setFirstAgentStatus agentId st now rest

/-- `updateAgentStatusAtom` write. -/
def updateAgentStatus (agentId : String) (st : AgentStatus) (now : Nat)
    (s : AIAgentState) : AIAgentState :=
  let agents' := setFirstAgentStatus agentId st now s.agents
  let active' :=
    match s.activeAgent with
    | some a => if a.id == agentId then
        some { a with status := st, lastActiveAt := now } else some a
    | none => none
  { s with agents := agents', activeAgent := active' }

/-- `setProcessingAtom` write. -/
def setProcessing (processing : Bool) (s : AIAgentState) : AIAgentState :=
  { s with isProcessing := processing
           streamingMessage := if processing then s.streamingMessage else none }

/-- `setErrorAtom` write of the AI agent slice. -/
def setError (e : Option String) (s : AIAgentState) : AIAgentState :=
  { s with error := e, isProcessing := false }

/-- `startStreamingMessageAtom` write. -/
def startStreamingMessage (messageId : String) (now : Nat) (s : AIAgentState) :
    AIAgentState :=
  let m : StreamingMessage :=
    { id := messageId, content := "", isComplete := false, startTime := now }
  { s with streamingMessage := some m, isProcessing := true }

/-- `updateStreamingMessageAtom` write. -/
def updateStreamingMessage (chunk : String) (s : AIAgentState) : AIAgentState :=
  match s.streamingMessage with
  | some m => { s with streamingMessage := some { m with content := m.content ++ chunk } }
  | none => s

/-- `completeStreamingMessageAtom` write. -/
def completeStreamingMessage (s : AIAgentState) : AIAgentState :=
  match s.streamingMessage with
  | some m =>
    { s with streamingMessage := some { m with isComplete := true }
             lastResponse := some m.content
             isProcessing := false }
  | none => s

/-- `addConversationEntryAtom` write: push the entry and keep only the last
50. -/
def addConversationEntry (entry : ConversationEntry) (s : AIAgentState) :
    AIAgentState :=
  let history1 := s.conversationHistory ++ [entry]
  let history2 := if history1.length > 50 then sliceLast 50 history1 else history1
  { s with conversationHistory := history2 }

/-- Mutate the first agent's performance, JS `find` plus `Object.assign`. -/
def setFirstAgentPerformance (agentId : String) (u : AgentPerformanceUpdate)
    (now : Nat) : List AIAgent → List AIAgent
  | [] => []
  | a :: rest =>
    if a.id == agentId then
      { a with performance :=
          { applyPerformanceUpdate u a.performance with lastEvaluatedAt := now } } :: rest
    else a :: setFirstAgentPerformance agentId u now rest

/-- `updateAgentPerformanceAtom` write. -/
def updateAgentPerformance (agentId : String) (u : AgentPerformanceUpdate)
    (now : Nat) (s : AIAgentState) : AIAgentState :=
  let agents' := setFirstAgentPerformance agentId u now s.agents
  let active' :=
    match s.activeAgent with
    | some a => if a.id == agentId then
        some { a with performance :=
          { applyPerformanceUpdate u a.performance with lastEvaluatedAt := now } }
      else some a
    | none => none
  { s with agents := agents', activeAgent := active' }

/-- `clearConversationHistoryAtom` write. -/
def clearConversationHistory (s : AIAgentState) : AIAgentState :=
  { s with conversationHistory := [] }

/-- The action alphabet of the AI agent slice: one constructor per write-only
atom. -/
inductive AAction where
  | setActiveAgent (agent : Option AIAgent)
  | addAgent (agent : AIAgent)
  | removeAgent (agentId : String)
  | updateAgentStatus (agentId : String) (st : AgentStatus) (now : Nat)
  | setProcessing (b : Bool)
  | setError (e : Option String)
  | startStreamingMessage (messageId : String) (now : Nat)
  | updateStreamingMessage (chunk : String)
  | completeStreamingMessage
  | addConversationEntry (entry : ConversationEntry)
  | updateAgentPerformance (agentId : String) (u : AgentPerformanceUpdate) (now : Nat)
  | clearConversationHistory
deriving Repr

/-- One write-atom call on the AI agent slice. -/
def step : AAction → AIAgentState → AIAgentState
  | AAction.setActiveAgent a => setActiveAgent a
  | AAction.addAgent a => addAgent a
  | AAction.removeAgent i => removeAgent i
  | AAction.updateAgentStatus i st now => updateAgentStatus i st now
  | AAction.setProcessing b => setProcessing b
  | AAction.setError e => setError e
  | AAction.startStreamingMessage m now => startStreamingMessage m now
  | AAction.updateStreamingMessage c => updateStreamingMessage c
  | AAction.completeStreamingMessage => completeStreamingMessage
  | AAction.addConversationEntry e => addConversationEntry e
  | AAction.updateAgentPerformance i u now => updateAgentPerformance i u now
  | AAction.clearConversationHistory => clearConversationHistory

/-- A sequence of write-atom calls on the AI agent slice. -/
def run (acts : List AAction) (s : AIAgentState) : AIAgentState :=
  acts.foldl (fun st a => step a st) s

end Energent.AIAgents

namespace Energent.VNC

/-! ## The VNC Jotai slice (vncAtoms); only the parts the claims touch -/

/-- `VNCStatus` union. -/
inductive VNCStatus where
  | connecting | connected | disconnected | error | reconnecting
deriving DecidableEq, Repr

/-- `VNCConnection` from the global types file. -/
structure VNCConnection where
  isSecure : Bool
  latency : JSNum
  bandwidth : JSNum
  packetLoss : JSNum
  reconnectAttempts : JSNum
  maxReconnectAttempts : JSNum
deriving DecidableEq, Repr

/-- `VNCViewport` from the global types file. -/
structure VNCViewport where
  width : JSNum
  height : JSNum
  scale : JSNum
  offsetX : JSNum
  offsetY : JSNum
  fullscreen : Bool
deriving DecidableEq, Repr

/-- `VNCSecurity` from the global types file. -/
structure VNCSecurity where
  authType : String
  encrypted : Bool
  certificateVerified : Option Bool
deriving DecidableEq, Repr

/-- `VNCSession` from the global types file. -/
structure VNCSession where
  id : String
  host : String
  port : JSNum
  status : VNCStatus
  quality : VNCQuality
  encoding : String
  connection : VNCConnection
  viewport : VNCViewport
  security : VNCSecurity
  createdAt : Nat
  lastActiveAt : Nat
deriving DecidableEq, Repr

/-- `VNCPerformanceMetrics` of the VNC slice. -/
structure VNCPerformanceMetrics where
  frameRate : JSNum
  latency : JSNum
  bandwidth : JSNum
  packetLoss : JSNum
  lastUpdated : Nat
deriving DecidableEq, Repr

/-- `VNCSettings` of the VNC slice. -/
structure VNCSettings where
  defaultQuality : VNCQuality
  autoReconnect : Bool
  showCursor : Bool
  viewOnly : Bool
  clipboardSync : Bool
deriving DecidableEq, Repr

/-- `VNCState` behind `vncAtom`. -/
structure VNCState where
  sessions : List VNCSession
  activeSession : Option VNCSession
  isConnecting : Bool
  connectionError : Option String
  performance : VNCPerformanceMetrics
  settings : VNCSettings
deriving DecidableEq, Repr

/-- `removeSessionAtom` write: filter out the id and clear a matching active
session. -/
def removeSession (sessionId : String) (s : VNCState) : VNCState :=
  let sessions' := s.sessions.filter (fun x => x.id != sessionId)
  let active' :=
    match s.activeSession with
    | some x => if x.id == sessionId then none else some x
    | none => none
  { s with sessions := sessions', activeSession := active' }

end Energent.VNC

namespace Energent

/-- Theme union `'light' | 'dark' | 'system'`. -/
inductive Theme where
  | light | dark | system
deriving DecidableEq, Repr

/-- Notification/toast type union `'info' | 'success' | 'warning' | 'error'`. -/
inductive NotifType where
  | info | success | warning | error
deriving DecidableEq, Repr

end Energent

namespace Energent.UserAtoms

/-! ## The user Jotai slice (userAtoms) -/

/-- `NotificationSettings` from the global types file. -/
structure NotificationSettings where
  email : Bool
  push : Bool
  inApp : Bool
  frequency : String
deriving DecidableEq, Repr

/-- `UIPreferences` from the global types file. -/
structure UIPreferences where
  sidebarCollapsed : Bool
  compactMode : Bool
  animationsEnabled : Bool
deriving DecidableEq, Repr

/-- `UserPreferences` from the global types file. -/
structure UserPreferences where
  theme : Theme
  language : String
  notifications : NotificationSettings
  ui : UIPreferences
deriving DecidableEq, Repr

/-- `Permission` from the global types file. -/
structure Permission where
  id : String
  name : String
  resource : String
  action : String
deriving DecidableEq, Repr

/-- `UserRole` from the global types file. -/
structure UserRole where
  id : String
  name : String
  permissions : List Permission
deriving DecidableEq, Repr

/-- `User` from the global types file. -/
structure User where
  id : String
  name : String
  email : String
  avatar : Option String
  isAuthenticated : Bool
  roles : List UserRole
  preferences : UserPreferences
  createdAt : Nat
  updatedAt : Nat
deriving DecidableEq, Repr

/-- `UserSession` of the user slice. -/
structure UserSession where
  id : String
  userId : String
  startTime : Nat
  lastActivity : Nat
  ipAddress : String
  userAgent : String
  isActive : Bool
deriving DecidableEq, Repr

/-- `UserState` behind `userAtom`. -/
structure UserState where
  currentUser : Option User
  isAuthenticated : Bool
  isLoading : Bool
  error : Option String
  preferences : UserPreferences
  sessions : List UserSession
deriving DecidableEq, Repr

/-- `defaultPreferences` of the user slice. -/
def defaultPreferences : UserPreferences :=
  { theme := Theme.system
    language := "en"
    notifications :=
      { email := true, push := true, inApp := true, frequency := "realtime" }
    ui := { sidebarCollapsed := false, compactMode := false,
            animationsEnabled := true } }

/-- `initialUserState`. -/
def initialUserState : UserState :=
  { currentUser := none, isAuthenticated := false, isLoading := false,
    error := none, preferences := defaultPreferences, sessions := [] }

/-- `logoutUserAtom` write: clear the user, mark every session inactive, keep
the preferences. -/
def logoutUser (s : UserState) : UserState :=
  { s with currentUser := none
           isAuthenticated := false
           error := none
           sessions := s.sessions.map (fun sess => { sess with isActive := false }) }

/-- `clearUserDataAtom` write: reset to the initial state but preserve the
current preferences. -/
def clearUserData (s : UserState) : UserState :=
  { initialUserState with preferences := s.preferences }

end Energent.UserAtoms

namespace Energent.UIAtoms

/-! ## The UI Jotai slice (uiAtoms.ts) -/

/-- `AppError` type union. -/
inductive AppErrorType where
  | network | validation | server | client | vnc | ai
deriving DecidableEq, Repr

/-- `AppError` from the global types file. -/
structure AppError where
  id : String
  type : AppErrorType
  message : String
  details : Option String
  timestamp : Nat
  resolved : Bool
  stack : Option String
deriving DecidableEq, Repr

/-- `Omit<AppError, 'id' | 'timestamp'>` taken by `addErrorAtom`. -/
structure AppErrorInput where
  type : AppErrorType
  message : String
  details : Option String
  resolved : Bool
  stack : Option String
deriving DecidableEq, Repr

/-- `ModalState` from the global types file; its `any` payload is opaque. -/
structure ModalState where
  id : String
  type : String
  isOpen : Bool
  data : Option String
deriving DecidableEq, Repr

/-- `Toast` from the global types file; the function-valued `action` field is
omitted (it carries no observable state for these claims). -/
structure Toast where
  id : String
  type : NotifType
  message : String
  duration : Option JSNum
deriving DecidableEq, Repr

/-- `Notification` from the global types file. -/
structure Notification where
  id : String
  type : NotifType
  title : String
  message : String
  timestamp : Nat
  read : Bool
  actionUrl : Option String
  actionText : Option String
deriving DecidableEq, Repr

/-- `BreadcrumbItem` of the UI slice. -/
structure BreadcrumbItem where
  label : String
  href : Option String
  current : Option Bool
deriving DecidableEq, Repr

/-- `UIState` behind `uiAtom`. -/
structure UIState where
  theme : Theme
  sidebarOpen : Bool
  sidebarCollapsed : Bool
  loading : Bool
  errors : List AppError
  modals : List ModalState
  toasts : List Toast
  notifications : List Notification
  pageTitle : String
  breadcrumbs : List BreadcrumbItem
deriving DecidableEq, Repr

/-- `initialUIState`. -/
def initialUIState : UIState :=
  { theme := Theme.system, sidebarOpen := true, sidebarCollapsed := false,
    loading := false, errors := [], modals := [], toasts := [],
    notifications := [], pageTitle := "Energent.ai", breadcrumbs := [] }

/-- Read side of `themeAtom`. -/
def themeGet (s : UIState) : Theme := s.theme

/-- Write side of `themeAtom` (the DOM class toggle is outside the state). -/
def themeSet (t : Theme) (s : UIState) : UIState := { s with theme := t }

/-- Read side of `sidebarOpenAtom`. -/
def sidebarOpenGet (s : UIState) : Bool := s.sidebarOpen

/-- Write side of `sidebarOpenAtom`. -/
def sidebarOpenSet (b : Bool) (s : UIState) : UIState := { s with sidebarOpen := b }

/-- Read side of `sidebarCollapsedAtom`. -/
def sidebarCollapsedGet (s : UIState) : Bool := s.sidebarCollapsed

/-- Write side of `sidebarCollapsedAtom`. -/
def sidebarCollapsedSet (b : Bool) (s : UIState) : UIState :=
  { s with sidebarCollapsed := b }

/-- Read side of `loadingAtom`. -/
def loadingGet (s : UIState) : Bool := s.loading

/-- Write side of `loadingAtom`. -/
def loadingSet (b : Bool) (s : UIState) : UIState := { s with loading := b }

/-- Read side of `pageTitleAtom`. -/
def pageTitleGet (s : UIState) : String := s.pageTitle

/-- Write side of `pageTitleAtom` (the `document.title` write is outside the
state). -/
def pageTitleSet (t : String) (s : UIState) : UIState := { s with pageTitle := t }

/-- Read side of `breadcrumbsAtom`. -/
def breadcrumbsGet (s : UIState) : List BreadcrumbItem := s.breadcrumbs

/-- Write side of `breadcrumbsAtom`. -/
def breadcrumbsSet (b : List BreadcrumbItem) (s : UIState) : UIState :=
  { s with breadcrumbs := b }

/-- `toggleSidebarAtom` write. -/
def toggleSidebar (s : UIState) : UIState :=
  { s with sidebarOpen := !s.sidebarOpen }

/-- The error record built by `addErrorAtom`: spread of the input, then the
generated id, fresh timestamp, and `resolved: false`. -/
def mkAppError (e : AppErrorInput) (now : Nat) (errId : String) : AppError :=
  { id := errId, type := e.type, message := e.message, details := e.details,
    timestamp := now, resolved := false, stack := e.stack }

/-- `addErrorAtom` write: unshift the new error, keep only the first 10. -/
def addError (e : AppErrorInput) (now : Nat) (errId : String) (s : UIState) :
    UIState :=
  let errors1 := mkAppError e now errId :: s.errors
  let errors2 := if errors1.length > 10 then errors1.take 10 else errors1
  { s with errors := errors2 }

/-- `removeErrorAtom` write. -/
def removeError (errorId : String) (s : UIState) : UIState :=
  { s with errors := s.errors.filter (fun e => e.id != errorId) }

/-- `removeModalAtom` write. -/
def removeModal (modalId : String) (s : UIState) : UIState :=
  { s with modals := s.modals.filter (fun m => m.id != modalId) }

/-- `removeToastAtom` write. -/
def removeToast (toastId : String) (s : UIState) : UIState :=
  { s with toasts := s.toasts.filter (fun t => t.id != toastId) }

/-- `removeNotificationAtom` write. -/
def removeNotification (notificationId : String) (s : UIState) : UIState :=
  { s with notifications := s.notifications.filter (fun n => n.id != notificationId) }

end Energent.UIAtoms

namespace Energent

/-! ## Helper lemmas -/

/-- Filtering is idempotent. -/
theorem filter_idem (p : α → Bool) (l : List α) :
    (l.filter p).filter p = l.filter p := by
  induction l with
  | nil => rfl
  | cons a t ih =>
    by_cases h : p a
    · simp [List.filter_cons, h, ih]
    · simp [List.filter_cons, h, ih]

/-- Every element surviving a filter satisfies the predicate. -/
theorem all_filter_self (p : α → Bool) (l : List α) :
    (l.filter p).all p = true := by
  simp only [List.all_eq_true, List.mem_filter]
  exact fun x hx => hx.2

/-- `sliceLast` keeps at most `n` elements. -/
theorem sliceLast_length_le (n : Nat) (l : List α) :
    (sliceLast n l).length ≤ n := by
  simp only [sliceLast, List.length_drop]
  omega

/-- `sliceLast` keeps exactly `n` elements of a longer list. -/
theorem sliceLast_length_of_le (n : Nat) (l : List α) (h : n ≤ l.length) :
    (sliceLast n l).length = n := by
  simp only [sliceLast, List.length_drop]
  omega

/-- `sliceLast` is a suffix: the survivors are the latest entries, in their
original order. -/
theorem sliceLast_suffix (n : Nat) (l : List α) : sliceLast n l <:+ l :=
  List.drop_suffix _ _

end Energent

namespace Energent

/-! ## Claims -/

open GlobalStore AIAgents VNC UserAtoms UIAtoms in
/-- C3: for every UI state and id, the remove-by-id actions `removeToast`,
`removeModal` and `removeNotification` are idempotent: applying one twice
with the same id equals applying it once. -/
theorem remove_by_id_idempotent (s : UIAtoms.UIState) (i : String) :
    UIAtoms.removeToast i (UIAtoms.removeToast i s) = UIAtoms.removeToast i s ∧
    UIAtoms.removeModal i (UIAtoms.removeModal i s) = UIAtoms.removeModal i s ∧
    UIAtoms.removeNotification i (UIAtoms.removeNotification i s) =
      UIAtoms.removeNotification i s := by
  refine ⟨?_, ?_, ?_⟩ <;>
    simp [UIAtoms.removeToast, UIAtoms.removeModal,
      UIAtoms.removeNotification, filter_idem]

/-- C4: read-after-write consistency of the writable UI cells: setting a
cell's value and immediately reading the same cell returns the just-set
value, for every read-write atom of the UI slice (theme, sidebarOpen,
sidebarCollapsed, loading, pageTitle, breadcrumbs). -/
theorem cell_read_after_write (s : UIAtoms.UIState) (t : Theme)
    (b1 b2 b3 : Bool) (title : String) (bc : List UIAtoms.BreadcrumbItem) :
    UIAtoms.themeGet (UIAtoms.themeSet t s) = t ∧
    UIAtoms.sidebarOpenGet (UIAtoms.sidebarOpenSet b1 s) = b1 ∧
    UIAtoms.sidebarCollapsedGet (UIAtoms.sidebarCollapsedSet b2 s) = b2 ∧
    UIAtoms.loadingGet (UIAtoms.loadingSet b3 s) = b3 ∧
    UIAtoms.pageTitleGet (UIAtoms.pageTitleSet title s) = title ∧
    UIAtoms.breadcrumbsGet (UIAtoms.breadcrumbsSet bc s) = bc :=
  ⟨rfl, rfl, rfl, rfl, rfl, rfl⟩

/-- C7: `addError` is a total function of the state (it cannot throw); it
prepends a freshly built record carrying the generated id, the fresh
timestamp and `resolved = false`, and afterwards the errors list holds at
most 10 entries. -/
theorem addError_prepends_and_bounded (e : UIAtoms.AppErrorInput) (now : Nat)
    (errId : String) (s : UIAtoms.UIState) :
    (UIAtoms.addError e now errId s).errors.head? =
      some (UIAtoms.mkAppError e now errId) ∧
    (UIAtoms.mkAppError e now errId).resolved = false ∧
    (UIAtoms.mkAppError e now errId).id = errId ∧
    (UIAtoms.mkAppError e now errId).timestamp = now ∧
    (UIAtoms.addError e now errId s).errors.length ≤ 10 := by
  refine ⟨?_, rfl, rfl, rfl, ?_⟩
  · simp only [UIAtoms.addError]
    split <;> simp
  · simp only [UIAtoms.addError]
    split
    · simp
    · rename_i h
      simp only [List.length_cons] at h ⊢
      omega

/-- C8: removing an agent by id leaves no agent with that id in the list and
never leaves an active agent with that id (the active agent is cleared
exactly when it carried the removed id); the same holds for VNC sessions
under `removeSession`. -/
theorem remove_clears_matching_id (s : AIAgents.AIAgentState) (aid : String)
    (v : VNC.VNCState) (sid : String) :
    ((AIAgents.removeAgent aid s).agents.all (fun a => a.id != aid)) = true ∧
    (AIAgents.removeAgent aid s).activeAgent =
      (if s.activeAgent.all (fun a => a.id != aid) then s.activeAgent else none) ∧
    ((VNC.removeSession sid v).sessions.all (fun x => x.id != sid)) = true ∧
    (VNC.removeSession sid v).activeSession =
      (if v.activeSession.all (fun x => x.id != sid) then v.activeSession
       else none) := by
  refine ⟨all_filter_self _ _, ?_, all_filter_self _ _, ?_⟩
  · cases hA : s.activeAgent with
    | none => simp [AIAgents.removeAgent, hA]
    | some a =>
      by_cases h : a.id = aid
      · simp [AIAgents.removeAgent, hA, h, Option.all]
      · simp [AIAgents.removeAgent, hA, h, Option.all]
  · cases hA : v.activeSession with
    | none => simp [VNC.removeSession, hA]
    | some x =>
      by_cases h : x.id = sid
      · simp [VNC.removeSession, hA, h, Option.all]
      · simp [VNC.removeSession, hA, h, Option.all]

/-- C9: `logoutUser` clears the current user, authentication flag and error,
marks every session inactive, and leaves the preferences untouched;
`clearUserData` resets every field to its initial value except the
preferences, which keep their current value. -/
theorem logout_and_clear_user_data (s : UserAtoms.UserState) :
    (UserAtoms.logoutUser s).currentUser = none ∧
    (UserAtoms.logoutUser s).isAuthenticated = false ∧
    (UserAtoms.logoutUser s).error = none ∧
    ((UserAtoms.logoutUser s).sessions.all (fun x => x.isActive == false)) = true ∧
    (UserAtoms.logoutUser s).preferences = s.preferences ∧
    (UserAtoms.clearUserData s).currentUser = UserAtoms.initialUserState.currentUser ∧
    (UserAtoms.clearUserData s).isAuthenticated =
      UserAtoms.initialUserState.isAuthenticated ∧
    (UserAtoms.clearUserData s).isLoading = UserAtoms.initialUserState.isLoading ∧
    (UserAtoms.clearUserData s).error = UserAtoms.initialUserState.error ∧
    (UserAtoms.clearUserData s).sessions = UserAtoms.initialUserState.sessions ∧
    (UserAtoms.clearUserData s).preferences = s.preferences := by
  refine ⟨rfl, rfl, rfl, ?_, rfl, rfl, rfl, rfl, rfl, rfl, rfl⟩
  simp [UserAtoms.logoutUser, List.all_eq_true]

/-- C10: when `debug.enabled` is false, `addDebugLog` leaves the entire
global store state unchanged: the entry is silently dropped. -/
theorem addDebugLog_disabled_is_noop (lg : DebugLogInput) (now : Nat)
    (i : String) (s : GlobalStore.GlobalState)
    (h : s.debug.enabled = false) :
    GlobalStore.addDebugLog lg now i s = s := by
  simp [GlobalStore.addDebugLog, h]

/-- Witness for C10 at a concrete non-dev initial state. -/
theorem addDebugLog_disabled_is_noop_witness :
    (GlobalStore.initialState false false "production").debug.enabled = false ∧
    GlobalStore.addDebugLog ⟨LogLevel.info, "msg", none⟩ 0 "id"
        (GlobalStore.initialState false false "production") =
      GlobalStore.initialState false false "production" :=
  ⟨rfl, addDebugLog_disabled_is_noop _ _ _ _ rfl⟩

/-- C2: serializing the persisted subset (`partialize`) of any global-store
state and rehydrating a fresh store from it restores exactly the settings,
features and `debug.enabled` to their pre-reload values, and leaves every
other field (`isInitialized`, version, environment, performance, security,
connectivity, debug logs and debug errors) at its default initial value. -/
theorem persist_roundtrip_restores_subset (dev online : Bool) (mode : String)
    (s : GlobalStore.GlobalState) :
    (GlobalStore.rehydrate dev online mode
      (GlobalStore.persistedSubset s)).settings = s.settings ∧
    (GlobalStore.rehydrate dev online mode
      (GlobalStore.persistedSubset s)).features = s.features ∧
    (GlobalStore.rehydrate dev online mode
      (GlobalStore.persistedSubset s)).debug.enabled = s.debug.enabled ∧
    (GlobalStore.rehydrate dev online mode
      (GlobalStore.persistedSubset s)).isInitialized =
      (GlobalStore.initialState dev online mode).isInitialized ∧
    (GlobalStore.rehydrate dev online mode
      (GlobalStore.persistedSubset s)).version =
      (GlobalStore.initialState dev online mode).version ∧
    (GlobalStore.rehydrate dev online mode
      (GlobalStore.persistedSubset s)).environment =
      (GlobalStore.initialState dev online mode).environment ∧
    (GlobalStore.rehydrate dev online mode
      (GlobalStore.persistedSubset s)).performance =
      (GlobalStore.initialState dev online mode).performance ∧
    (GlobalStore.rehydrate dev online mode
      (GlobalStore.persistedSubset s)).security =
      (GlobalStore.initialState dev online mode).security ∧
    (GlobalStore.rehydrate dev online mode
      (GlobalStore.persistedSubset s)).connectivity =
      (GlobalStore.initialState dev online mode).connectivity ∧
    (GlobalStore.rehydrate dev online mode
      (GlobalStore.persistedSubset s)).debug.logs =
      (GlobalStore.initialState dev online mode).debug.logs ∧
    (GlobalStore.rehydrate dev online mode
      (GlobalStore.persistedSubset s)).debug.errors =
      (GlobalStore.initialState dev online mode).debug.errors :=
  ⟨rfl, rfl, rfl, rfl, rfl, rfl, rfl, rfl, rfl, rfl, rfl⟩

end Energent

namespace Energent

/-- Specification of the push-then-trim pattern `if l.length > cap then
l.slice(-cap) else l`: the result is a suffix of `l` (so the survivors are
the latest entries in their original order), it is all of `l` when under the
cap, and it has exactly `cap` entries when over it. -/
theorem trim_fifo_spec (cap : Nat) (l : List α) :
    ((if l.length > cap then sliceLast cap l else l) <:+ l) ∧
    (l.length ≤ cap → (if l.length > cap then sliceLast cap l else l) = l) ∧
    (l.length > cap → (if l.length > cap then sliceLast cap l else l).length = cap) := by
  refine ⟨?_, ?_, ?_⟩
  · split
    · exact sliceLast_suffix _ _
    · exact List.suffix_refl _
  · intro h
    rw [if_neg (by omega)]
  · intro h
    rw [if_pos h]
    exact sliceLast_length_of_le _ _ (by omega)

/-- C5: when an append action overflows a capped list — security events
(cap 1000), debug logs (cap 500, with debugging enabled so that the append
happens), performance metrics (cap 100) — the eviction is fixed-size FIFO:
the post-state list is a suffix of the old list with the new entry appended
(so the oldest entries are dropped and the retained entries are exactly the
most recently appended ones in insertion order), it equals the whole
appended list when under the cap, and it has exactly the cap's length when
over it. -/
theorem append_eviction_fifo (s t : GlobalStore.GlobalState)
    (ev : SecurityEventInput) (m : PerformanceMetrics) (lg : DebugLogInput)
    (now : Nat) (i i1 i2 j : String) (hdbg : t.debug.enabled = true) :
    ((GlobalStore.addSecurityEvent ev now i s).security.events <:+
      s.security.events ++ [GlobalStore.mkSecurityEvent ev now i]) ∧
    ((s.security.events ++ [GlobalStore.mkSecurityEvent ev now i]).length ≤ 1000 →
      (GlobalStore.addSecurityEvent ev now i s).security.events =
        s.security.events ++ [GlobalStore.mkSecurityEvent ev now i]) ∧
    ((s.security.events ++ [GlobalStore.mkSecurityEvent ev now i]).length > 1000 →
      (GlobalStore.addSecurityEvent ev now i s).security.events.length = 1000) ∧
    ((GlobalStore.addPerformanceMetric m now i1 i2 s).performance.metrics <:+
      s.performance.metrics ++ [m]) ∧
    ((s.performance.metrics ++ [m]).length ≤ 100 →
      (GlobalStore.addPerformanceMetric m now i1 i2 s).performance.metrics =
        s.performance.metrics ++ [m]) ∧
    ((s.performance.metrics ++ [m]).length > 100 →
      (GlobalStore.addPerformanceMetric m now i1 i2 s).performance.metrics.length = 100) ∧
    ((GlobalStore.addDebugLog lg now j t).debug.logs <:+
      t.debug.logs ++ [GlobalStore.mkDebugLog lg now j]) ∧
    ((t.debug.logs ++ [GlobalStore.mkDebugLog lg now j]).length ≤ 500 →
      (GlobalStore.addDebugLog lg now j t).debug.logs =
        t.debug.logs ++ [GlobalStore.mkDebugLog lg now j]) ∧
    ((t.debug.logs ++ [GlobalStore.mkDebugLog lg now j]).length > 500 →
      (GlobalStore.addDebugLog lg now j t).debug.logs.length = 500) := by
  have hsec : (GlobalStore.addSecurityEvent ev now i s).security.events =
      (if (s.security.events ++ [GlobalStore.mkSecurityEvent ev now i]).length > 1000
       then sliceLast 1000 (s.security.events ++ [GlobalStore.mkSecurityEvent ev now i])
       else s.security.events ++ [GlobalStore.mkSecurityEvent ev now i]) := rfl
  have hmet : (GlobalStore.addPerformanceMetric m now i1 i2 s).performance.metrics =
      (if (s.performance.metrics ++ [m]).length > 100
       then sliceLast 100 (s.performance.metrics ++ [m])
       else s.performance.metrics ++ [m]) := rfl
  have hlog : (GlobalStore.addDebugLog lg now j t).debug.logs =
      (if (t.debug.logs ++ [GlobalStore.mkDebugLog lg now j]).length > 500
       then sliceLast 500 (t.debug.logs ++ [GlobalStore.mkDebugLog lg now j])
       else t.debug.logs ++ [GlobalStore.mkDebugLog lg now j]) := by
    simp only [GlobalStore.addDebugLog, hdbg, if_true]
  rw [hsec, hmet, hlog]
  obtain ⟨a1, a2, a3⟩ :=
    trim_fifo_spec 1000 (s.security.events ++ [GlobalStore.mkSecurityEvent ev now i])
  obtain ⟨b1, b2, b3⟩ := trim_fifo_spec 100 (s.performance.metrics ++ [m])
  obtain ⟨c1, c2, c3⟩ :=
    trim_fifo_spec 500 (t.debug.logs ++ [GlobalStore.mkDebugLog lg now j])
  exact ⟨a1, a2, a3, b1, b2, b3, c1, c2, c3⟩

/-- Concrete state with debugging off, used by witnesses. -/
def c5s : GlobalStore.GlobalState := GlobalStore.initialState false false "production"

/-- Concrete state with debugging on, used by witnesses. -/
def c5t : GlobalStore.GlobalState := GlobalStore.initialState true false "development"

/-- Concrete security event input used by witnesses. -/
def c5ev : SecurityEventInput :=
  { type := SecEventType.intrusion, severity := Severity.low,
    description := "d", source := "s", userId := none,
    ipAddress := "ip", userAgent := "ua", resolved := false }

/-- Concrete performance metric used by witnesses. -/
def c5m : PerformanceMetrics :=
  { renderTime := 1, bundleSize := 2, memoryUsage := 3, networkLatency := 4,
    vncFrameRate := 5, aiResponseTime := 6, errorRate := 7, timestamp := 8 }

/-- Concrete debug log input used by witnesses. -/
def c5lg : DebugLogInput := { level := LogLevel.debug, message := "m", data := none }

/-- Witness for C5 at concrete inputs. -/
theorem append_eviction_fifo_witness :
    c5t.debug.enabled = true ∧
    (((GlobalStore.addSecurityEvent c5ev 5 "e1" c5s).security.events <:+
      c5s.security.events ++ [GlobalStore.mkSecurityEvent c5ev 5 "e1"]) ∧
    ((c5s.security.events ++ [GlobalStore.mkSecurityEvent c5ev 5 "e1"]).length ≤ 1000 →
      (GlobalStore.addSecurityEvent c5ev 5 "e1" c5s).security.events =
        c5s.security.events ++ [GlobalStore.mkSecurityEvent c5ev 5 "e1"]) ∧
    ((c5s.security.events ++ [GlobalStore.mkSecurityEvent c5ev 5 "e1"]).length > 1000 →
      (GlobalStore.addSecurityEvent c5ev 5 "e1" c5s).security.events.length = 1000) ∧
    ((GlobalStore.addPerformanceMetric c5m 5 "i1" "i2" c5s).performance.metrics <:+
      c5s.performance.metrics ++ [c5m]) ∧
    ((c5s.performance.metrics ++ [c5m]).length ≤ 100 →
      (GlobalStore.addPerformanceMetric c5m 5 "i1" "i2" c5s).performance.metrics =
        c5s.performance.metrics ++ [c5m]) ∧
    ((c5s.performance.metrics ++ [c5m]).length > 100 →
      (GlobalStore.addPerformanceMetric c5m 5 "i1" "i2" c5s).performance.metrics.length = 100) ∧
    ((GlobalStore.addDebugLog c5lg 5 "j" c5t).debug.logs <:+
      c5t.debug.logs ++ [GlobalStore.mkDebugLog c5lg 5 "j"]) ∧
    ((c5t.debug.logs ++ [GlobalStore.mkDebugLog c5lg 5 "j"]).length ≤ 500 →
      (GlobalStore.addDebugLog c5lg 5 "j" c5t).debug.logs =
        c5t.debug.logs ++ [GlobalStore.mkDebugLog c5lg 5 "j"]) ∧
    ((c5t.debug.logs ++ [GlobalStore.mkDebugLog c5lg 5 "j"]).length > 500 →
      (GlobalStore.addDebugLog c5lg 5 "j" c5t).debug.logs.length = 500)) :=
  ⟨rfl, append_eviction_fifo c5s c5t c5ev c5m c5lg 5 "e1" "i1" "i2" "j" rfl⟩

/-- Every single global-store action keeps the metrics list within 100. -/
theorem metrics_step_le (dev online : Bool) (mode : String)
    (a : GlobalStore.GAction) (s : GlobalStore.GlobalState)
    (h : s.performance.metrics.length ≤ 100) :
    (GlobalStore.step dev online mode a s).performance.metrics.length ≤ 100 := by
  cases a
  case addPerformanceMetric m now i1 i2 =>
    show (if (s.performance.metrics ++ [m]).length > 100
          then sliceLast 100 (s.performance.metrics ++ [m])
          else s.performance.metrics ++ [m]).length ≤ 100
    split
    · exact sliceLast_length_le _ _
    · rename_i hlen
      simp only [List.length_append, List.length_cons, List.length_nil] at hlen ⊢
      omega
  case reset => exact Nat.zero_le _
  case clearPerformanceData => exact Nat.zero_le _
  all_goals first
    | exact h
    | (simp only [GlobalStore.step, GlobalStore.addDebugLog]
       split <;> exact h)

/-- Running any sequence of global-store actions keeps the metrics list
within 100. -/
theorem run_metrics_le (dev online : Bool) (mode : String) :
    ∀ (acts : List GlobalStore.GAction) (s : GlobalStore.GlobalState),
      s.performance.metrics.length ≤ 100 →
      (GlobalStore.run dev online mode acts s).performance.metrics.length ≤ 100
  | [], _, h => h
  | a :: rest, s, h =>
    run_metrics_le dev online mode rest _ (metrics_step_le dev online mode a s h)

/-- Every single AI-agent write keeps the conversation history within 50. -/
theorem conv_step_le (a : AIAgents.AAction) (s : AIAgents.AIAgentState)
    (h : s.conversationHistory.length ≤ 50) :
    (AIAgents.step a s).conversationHistory.length ≤ 50 := by
  cases a
  case addConversationEntry e =>
    show (if (s.conversationHistory ++ [e]).length > 50
          then sliceLast 50 (s.conversationHistory ++ [e])
          else s.conversationHistory ++ [e]).length ≤ 50
    split
    · exact sliceLast_length_le _ _
    · rename_i hlen
      simp only [List.length_append, List.length_cons, List.length_nil] at hlen ⊢
      omega
  case clearConversationHistory => exact Nat.zero_le _
  case addAgent ag =>
    simp only [AIAgents.step, AIAgents.addAgent]
    split <;> exact h
  case updateStreamingMessage c =>
    cases hm : s.streamingMessage <;>
      simp [AIAgents.step, AIAgents.updateStreamingMessage, hm] <;> exact h
  case completeStreamingMessage =>
    cases hm : s.streamingMessage <;>
      simp [AIAgents.step, AIAgents.completeStreamingMessage, hm] <;> exact h
  all_goals exact h

/-- Running any sequence of AI-agent writes keeps the conversation history
within 50. -/
theorem run_conv_le :
    ∀ (acts : List AIAgents.AAction) (s : AIAgents.AIAgentState),
      s.conversationHistory.length ≤ 50 →
      (AIAgents.run acts s).conversationHistory.length ≤ 50
  | [], _, h => h
  | a :: rest, s, h => run_conv_le rest _ (conv_step_le a s h)

/-- C1: starting from the initial states, no sequence of action calls ever
pushes a bounded list past its cap: the global store's
`performance.metrics` stays within 100 entries and the AI-agent slice's
`conversationHistory` stays within 50 entries. -/
theorem bounded_lists_never_exceed_caps (dev online : Bool) (mode : String)
    (gacts : List GlobalStore.GAction) (aacts : List AIAgents.AAction) :
    (GlobalStore.run dev online mode gacts
      (GlobalStore.initialState dev online mode)).performance.metrics.length ≤ 100 ∧
    (AIAgents.run aacts
      AIAgents.initialAIAgentState).conversationHistory.length ≤ 50 :=
  ⟨run_metrics_le dev online mode gacts _ (Nat.zero_le _),
   run_conv_le aacts _ (Nat.zero_le _)⟩

end Energent
